import Mathlib

/-!
Shallow embedding of the fxf credential and session management subsystem
(files src/fxf/api.py, src/fxf/config.py, src/fxf/__main__.py), together
with theorems settling the specification claims about it.
-/

namespace Fxf

/-! ### Session Factory (src/fxf/api.py, class ApiFactory)

The factory holds a reference count (field `_depth`, a Python int) and an
underlying HTTP client.  `__enter__` constructs and opens the client when
the count is zero, then increments the count; `__exit__` decrements the
count when it is non-zero and closes the client when the count returns to
zero.  We model the observable state: the count (as an integer, since the
claims ask whether it can go negative), whether the underlying client
resource is currently open, and how many open / close events happened. -/

inductive FactoryOp where
  | enter
  | exit
deriving DecidableEq, Repr

structure FactoryState where
  depth : Int
  clientOpen : Bool
  opens : Nat
  closes : Nat
deriving DecidableEq, Repr

/-- Initial state of a freshly constructed ApiFactory: `self.client = None`,
`self._depth = 0`, no events yet. -/
def FactoryState.init : FactoryState :=
  { depth := 0, clientOpen := false, opens := 0, closes := 0 }

/-- One call of `__enter__` or `__exit__`.  Python truthiness: `if not
self._depth` holds exactly when the count equals 0, `if self._depth` exactly
when it differs from 0. -/
def FactoryState.step (s : FactoryState) : FactoryOp → FactoryState
  | .enter =>
      let s1 :=
        if s.depth = 0 then
          { s with clientOpen := true, opens := s.opens + 1 }
        else s
      { s1 with depth := s1.depth + 1 }
  | .exit =>
      if s.depth = 0 then s
      else
        let s1 := { s with depth := s.depth - 1 }
        if s1.depth = 0 then
          { s1 with clientOpen := false, closes := s1.closes + 1 }
        else s1

/-- Run a sequence of enter / exit calls from a given state. -/
def FactoryState.run (s : FactoryState) (ops : List FactoryOp) : FactoryState :=
  ops.foldl FactoryState.step s

/-- Balanced sequences of enter / exit calls (properly nested pairs). -/
inductive Balanced : List FactoryOp → Prop where
  | nil : Balanced []
  | wrap {s : List FactoryOp} : Balanced s →
      Balanced (FactoryOp.enter :: s ++ [FactoryOp.exit])
  | append {s t : List FactoryOp} : Balanced s → Balanced t → Balanced (s ++ t)

theorem FactoryState.run_append (s : FactoryState) (l₁ l₂ : List FactoryOp) :
    s.run (l₁ ++ l₂) = (s.run l₁).run l₂ := by
  simp [FactoryState.run, List.foldl_append]

/-- A balanced sequence executed while the reference count is at least 1
leaves the factory state completely unchanged: the count never touches 0, so
no client is constructed or released. -/
theorem FactoryState.run_balanced_of_pos {ops : List FactoryOp}
    (hb : Balanced ops) :
    ∀ s : FactoryState, 1 ≤ s.depth → s.run ops = s := by
  induction hb with
  | nil =>
      intro s _
      rfl
  | @wrap t _ ih =>
      intro s hs
      have hne : ¬ s.depth = 0 := by omega
      have hstep : s.step FactoryOp.enter = { s with depth := s.depth + 1 } := by
        simp [FactoryState.step, hne]
      have hsplit : s.run (FactoryOp.enter :: t ++ [FactoryOp.exit])
          = ((s.step FactoryOp.enter).run t).step FactoryOp.exit := by
        simp [FactoryState.run, List.foldl_append]
      rw [hsplit, hstep, ih _ (by simp; omega)]
      have h1 : ¬ (s.depth + 1 = 0) := by omega
      have h2 : ¬ (s.depth + 1 - 1 = 0) := by omega
      simp [FactoryState.step, h1, h2, hne]
  | append _ _ ih₁ ih₂ =>
      intro s hs
      rw [FactoryState.run_append, ih₁ s hs, ih₂ s hs]

/-- The state invariant maintained by every enter / exit call: the count is
non-negative and the client resource is open exactly when the count is
positive. -/
def FactoryState.inv (s : FactoryState) : Prop :=
  0 ≤ s.depth ∧ (s.clientOpen = true ↔ 0 < s.depth)

theorem FactoryState.inv_step {s : FactoryState} (h : s.inv) (op : FactoryOp) :
    (s.step op).inv := by
  obtain ⟨hnn, hiff⟩ := h
  cases op with
  | enter =>
      by_cases h0 : s.depth = 0 <;>
        simp_all [FactoryState.step, FactoryState.inv] <;> omega
  | exit =>
      by_cases h0 : s.depth = 0
      · simp_all [FactoryState.step, FactoryState.inv]
      · by_cases h1 : s.depth - 1 = 0 <;>
          simp_all [FactoryState.step, FactoryState.inv] <;> omega

theorem FactoryState.inv_run (s : FactoryState) (h : s.inv) (ops : List FactoryOp) :
    (s.run ops).inv := by
  induction ops generalizing s with
  | nil => exact h
  | cons op rest ih => exact ih _ (FactoryState.inv_step h op)

theorem FactoryState.init_inv : FactoryState.init.inv := by
  constructor <;> simp [FactoryState.init]

/-- C1: a balanced, nested sequence of scoped acquisitions on one ApiFactory
instance (an outermost enter / exit pair wrapping any balanced nesting)
constructs the underlying HTTP client exactly once and releases it exactly
once, leaving the count at 0 with the client released; and at every reachable
point the client resource is open if and only if the reference count is
positive. -/
theorem apiFactory_nested_scopes_one_client (t : List FactoryOp)
    (hb : Balanced t) :
    ((FactoryState.init.run (FactoryOp.enter :: t ++ [FactoryOp.exit])).opens = 1
      ∧ (FactoryState.init.run (FactoryOp.enter :: t ++ [FactoryOp.exit])).closes = 1
      ∧ (FactoryState.init.run (FactoryOp.enter :: t ++ [FactoryOp.exit])).depth = 0
      ∧ (FactoryState.init.run (FactoryOp.enter :: t ++ [FactoryOp.exit])).clientOpen = false)
    ∧ ∀ ops : List FactoryOp,
        ((FactoryState.init.run ops).clientOpen = true
          ↔ 0 < (FactoryState.init.run ops).depth) := by
  constructor
  · have hsplit : FactoryState.init.run (FactoryOp.enter :: t ++ [FactoryOp.exit])
        = ((FactoryState.init.step FactoryOp.enter).run t).step FactoryOp.exit := by
      simp [FactoryState.run, List.foldl_append]
    have hstep : FactoryState.init.step FactoryOp.enter
        = { depth := 1, clientOpen := true, opens := 1, closes := 0 } := by
      simp [FactoryState.step, FactoryState.init]
    rw [hsplit, hstep,
      FactoryState.run_balanced_of_pos hb _ (by simp)]
    simp [FactoryState.step]
  · intro ops
    exact (FactoryState.inv_run _ FactoryState.init_inv ops).2

/-- C1 witness: the concrete sequence enter, enter, exit, exit yields exactly
one open and one close event. -/
theorem apiFactory_nested_scopes_one_client_witness :
    (FactoryState.init.run
        (FactoryOp.enter :: [FactoryOp.enter, FactoryOp.exit] ++ [FactoryOp.exit])).opens = 1
    ∧ (FactoryState.init.run
        (FactoryOp.enter :: [FactoryOp.enter, FactoryOp.exit] ++ [FactoryOp.exit])).closes = 1 := by
  have h := apiFactory_nested_scopes_one_client [FactoryOp.enter, FactoryOp.exit]
    (Balanced.wrap Balanced.nil)
  exact ⟨h.1.1, h.1.2.1⟩

/-- C10: over every sequence of enter / exit calls the reference count never
becomes negative, and an exit call in a state whose count is 0 is a complete
no-op: it returns the state unchanged (no decrement, no release, no event). -/
theorem apiFactory_exit_underflow_safe :
    (∀ ops : List FactoryOp, 0 ≤ (FactoryState.init.run ops).depth)
    ∧ ∀ s : FactoryState, s.depth = 0 → s.step FactoryOp.exit = s := by
  constructor
  · intro ops
    exact (FactoryState.inv_run _ FactoryState.init_inv ops).1
  · intro s h
    simp [FactoryState.step, h]

/-- C10 witness: two exits on a fresh factory keep the count non-negative, and
one exit on the initial state leaves it untouched. -/
theorem apiFactory_exit_underflow_safe_witness :
    0 ≤ (FactoryState.init.run [FactoryOp.exit, FactoryOp.exit]).depth
    ∧ FactoryState.init.step FactoryOp.exit = FactoryState.init :=
  ⟨apiFactory_exit_underflow_safe.1 [FactoryOp.exit, FactoryOp.exit],
    apiFactory_exit_underflow_safe.2 FactoryState.init rfl⟩

/-! ### Credential Manager (src/fxf/config.py, class ConfigManager)

The profile store is a TOML document holding a `profiles` table keyed by
profile name; each profile table may hold a `domains` array.  tomlkit tables
preserve insertion order, so tables are modelled as association lists.  The
secret store (keyring) maps a (service, account) pair to a password; the
service is the fixed string "fxf" and the account is the instance base URL.
Durable effects (disk reads and writes, keyring reads and writes, network
calls) are recorded in an explicit trace. -/

structure ProfileTable where
  domains : Option (List String)
deriving DecidableEq, Repr

structure TOMLDocument where
  profiles : Option (List (String × ProfileTable))
deriving DecidableEq, Repr

/-- An empty document, as returned by `tomlkit.document()` when the
configuration file does not exist yet. -/
def TOMLDocument.empty : TOMLDocument := ⟨none⟩

def lookupTable : List (String × ProfileTable) → String → Option ProfileTable
  | [], _ => none
  | (k, v) :: rest, key => if k = key then some v else lookupTable rest key

def setTable : List (String × ProfileTable) → String → ProfileTable →
    List (String × ProfileTable)
  | [], key, v => [(key, v)]
  | (k, w) :: rest, key, v =>
      if k = key then (key, v) :: rest else (k, w) :: setTable rest key v

/-- The secret store: (service, account) keys to stored passwords, a new save
overwriting any previous entry for the same key. -/
abbrev Keyring : Type := List ((String × String) × String)

def krGet : Keyring → String → String → Option String
  | [], _, _ => none
  | (k, pwd) :: rest, service, account =>
      if k = (service, account) then some pwd else krGet rest service account

def krSet : Keyring → String → String → String → Keyring
  | [], service, account, pwd => [((service, account), pwd)]
  | (k, w) :: rest, service, account, pwd =>
      if k = (service, account) then (k, pwd) :: rest
      else (k, w) :: krSet rest service account pwd

inductive Effect where
  | diskRead
  | diskWrite (doc : TOMLDocument)
  | keyringGet (service account : String)
  | keyringSet (service account password : String)
  | network (url : String)
deriving DecidableEq, Repr

/-- Holds exactly when an effect trace contains no network call. -/
def networkFree (trace : List Effect) : Bool :=
  trace.all fun e =>
    match e with
    | .network _ => false
    | _ => true

structure ConfigManager where
  profile : String
  disk : Option TOMLDocument
  keyring : Keyring
deriving DecidableEq, Repr

/-- ConfigManager.get_config: parse the stored file, or return an empty
document when the file does not exist. -/
def get_config (disk : Option TOMLDocument) : TOMLDocument :=
  disk.getD TOMLDocument.empty

/-- ConfigManager.write_config: the document becomes the stored file. -/
def write_config (doc : TOMLDocument) : Option TOMLDocument := some doc

/-- Modelled from the spec: the error classes live in src/fxf/errors.py,
which is not among the provided sources; the provided files only construct
and catch them.  Following the spec error taxonomy, the missing-credential
failure carries the instance identifier and the active profile (in the source
via the message string), the validation loop raises a generic failure carrying
the unexpected HTTP status, and an unsupported protocol becomes an
invalid-URL failure. -/
inductive FxfError where
  | missingToken (instanceId profile : String)
  | unexpectedServer (status : Nat)
  | invalidUrl (instanceId : String)
deriving DecidableEq, Repr

/-- The value returned by ConfigManager.get_api: a freshly constructed
ApiFactory holding the base URL and the resolved token (its construction
performs no I/O). -/
structure ApiFactory where
  base_url : String
  token : String
deriving DecidableEq, Repr

/-- ConfigManager.get_api: when the explicit token is empty look it up in the
keyring; if the token is still falsy (absent, or the empty string) raise the
missing-credential error; otherwise return a factory for (base URL, token).
The trace records the keyring read; no network effect occurs. -/
def get_api (cm : ConfigManager) (base_url token : String) :
    Except FxfError ApiFactory × List Effect :=
  if token = "" then
    match krGet cm.keyring "fxf" base_url with
    | none =>
        (Except.error (FxfError.missingToken base_url cm.profile),
          [Effect.keyringGet "fxf" base_url])
    | some t =>
        if t = "" then
          (Except.error (FxfError.missingToken base_url cm.profile),
            [Effect.keyringGet "fxf" base_url])
        else (Except.ok ⟨base_url, t⟩, [Effect.keyringGet "fxf" base_url])
  else (Except.ok ⟨base_url, token⟩, [])

/-- The profiles list after the two creation steps at the top of
ConfigManager.edit_profile: add an empty `profiles` table if the document has
none, then add an empty table for the active profile if it is missing
(tomlkit `add` appends at the end). -/
def editSetup (profileName : String) (disk : Option TOMLDocument) :
    List (String × ProfileTable) :=
  let pl := (get_config disk).profiles.getD []
  if (lookupTable pl profileName).isNone then pl ++ [(profileName, ⟨none⟩)]
  else pl

/-- The profile table yielded to the body of the edit_profile scope. -/
def editYield (profileName : String) (disk : Option TOMLDocument) : ProfileTable :=
  (lookupTable (editSetup profileName disk) profileName).getD ⟨none⟩

/-- ConfigManager.edit_profile: yield the (created on demand) profile table to
the body; on normal completion write the updated document back; when the body
raises, the exception propagates through the yield of the @contextmanager
generator, so write_config is never reached and the stored document stays as
it was. -/
def edit_profile {ε : Type} (profileName : String) (disk : Option TOMLDocument)
    (body : ProfileTable → Except ε ProfileTable) :
    Option TOMLDocument × Option ε :=
  match body (editYield profileName disk) with
  | Except.error e => (disk, some e)
  | Except.ok prof =>
      (write_config ⟨some (setTable (editSetup profileName disk) profileName prof)⟩,
        none)

/-- ConfigManager.get_profile: read-only view; an absent document, profiles
table or profile yields an empty table. -/
def get_profile (profileName : String) (disk : Option TOMLDocument) : ProfileTable :=
  match (get_config disk).profiles with
  | none => ⟨none⟩
  | some pl =>
      match lookupTable pl profileName with
      | none => ⟨none⟩
      | some t => t

/-- The domains update performed inside ConfigManager.save_credentials:
`domains = profile.get("domains", [])`, then append the base URL if absent. -/
def updatedDomains (prof : ProfileTable) (base_url : String) : List String :=
  let domains := prof.domains.getD []
  if base_url ∈ domains then domains else domains ++ [base_url]

/-- ConfigManager.save_credentials: inside an edit_profile scope, update the
domains list of the active profile and save the token into the keyring
(`self._save_token` runs inside the with block); the updated document is
persisted only afterwards, when the scope exits.  The `writeOk` flag models
whether that final disk write succeeds; when it fails the keyring write has
already happened. -/
def save_credentials (cm : ConfigManager) (base_url token : String)
    (writeOk : Bool) : ConfigManager × List Effect :=
  let prof := editYield cm.profile cm.disk
  let prof := { prof with domains := some (updatedDomains prof base_url) }
  let kr := krSet cm.keyring "fxf" base_url token
  if writeOk then
    let doc : TOMLDocument :=
      ⟨some (setTable (editSetup cm.profile cm.disk) cm.profile prof)⟩
    ({ cm with keyring := kr, disk := write_config doc },
      [Effect.diskRead, Effect.keyringSet "fxf" base_url token,
        Effect.diskWrite doc])
  else
    ({ cm with keyring := kr },
      [Effect.diskRead, Effect.keyringSet "fxf" base_url token])

/-- The domains list of the active profile as read back from storage. -/
def domainsOf (cm : ConfigManager) : List String :=
  (get_profile cm.profile cm.disk).domains.getD []

/-- A sequence of save_credentials calls, every disk write succeeding. -/
def runSaves (cm : ConfigManager) (calls : List (String × String)) : ConfigManager :=
  calls.foldl (fun c p => (save_credentials c p.1 p.2 true).1) cm

theorem lookupTable_setTable_self (l : List (String × ProfileTable))
    (key : String) (v : ProfileTable) :
    lookupTable (setTable l key v) key = some v := by
  induction l with
  | nil => simp [setTable, lookupTable]
  | cons head rest ih =>
      obtain ⟨k, w⟩ := head
      by_cases hk : k = key <;> simp [setTable, lookupTable, hk, ih]

theorem lookupTable_append_of_none {l₁ : List (String × ProfileTable)}
    (l₂ : List (String × ProfileTable)) (key : String)
    (h : lookupTable l₁ key = none) :
    lookupTable (l₁ ++ l₂) key = lookupTable l₂ key := by
  induction l₁ with
  | nil => simp
  | cons head rest ih =>
      obtain ⟨k, w⟩ := head
      by_cases hk : k = key
      · simp [lookupTable, hk] at h
      · simp only [lookupTable, hk, if_false, List.cons_append] at h ⊢
        exact ih h

theorem editYield_eq_get_profile (profileName : String)
    (disk : Option TOMLDocument) :
    editYield profileName disk = get_profile profileName disk := by
  unfold editYield editSetup get_profile
  cases hp : (get_config disk).profiles with
  | none => simp [lookupTable]
  | some pl =>
      cases hl : lookupTable pl profileName with
      | none => simp [hl, lookupTable_append_of_none _ _ hl, lookupTable]
      | some t => simp [hl]

theorem krGet_krSet_self (kr : Keyring) (service account pwd : String) :
    krGet (krSet kr service account pwd) service account = some pwd := by
  induction kr with
  | nil => simp [krSet, krGet]
  | cons head rest ih =>
      obtain ⟨k, w⟩ := head
      by_cases hk : k = (service, account) <;> simp [krSet, krGet, hk, ih]

theorem domainsOf_save (cm : ConfigManager) (base_url token : String) :
    domainsOf (save_credentials cm base_url token true).1
      = updatedDomains (get_profile cm.profile cm.disk) base_url := by
  simp [domainsOf, save_credentials, get_profile, get_config, write_config,
    lookupTable_setTable_self, editYield_eq_get_profile]

theorem updatedDomains_nodup {prof : ProfileTable} {base_url : String}
    (h : (prof.domains.getD []).Nodup) :
    (updatedDomains prof base_url).Nodup := by
  unfold updatedDomains
  by_cases hm : base_url ∈ prof.domains.getD []
  · simpa [hm] using h
  · simp [hm, List.nodup_append, h]

/-- C3: when the body of an edit_profile scope raises, the stored document is
not rewritten: the on-disk state after the exception propagates is exactly the
state from before the edit, and the exception is passed on. -/
theorem edit_profile_exception_discards {ε : Type} (profileName : String)
    (disk : Option TOMLDocument) (body : ProfileTable → Except ε ProfileTable)
    (e : ε) (h : body (editYield profileName disk) = Except.error e) :
    edit_profile profileName disk body = (disk, some e) := by
  simp [edit_profile, h]

/-- C3 witness: a body that raises inside the scope leaves a concrete stored
document untouched. -/
theorem edit_profile_exception_discards_witness :
    edit_profile "default"
      (some ⟨some [("default", ⟨some ["https://a"]⟩)]⟩)
      (fun _ => (Except.error 0 : Except Nat ProfileTable))
    = (some ⟨some [("default", ⟨some ["https://a"]⟩)]⟩, some 0) :=
  edit_profile_exception_discards "default"
    (some ⟨some [("default", ⟨some ["https://a"]⟩)]⟩)
    (fun _ => (Except.error 0 : Except Nat ProfileTable)) 0 rfl

/-- C4 counterexample: with the empty token, saving the credential and then
resolving with no explicit token does not return that token; the resolution
path treats the stored empty string like an absent credential and fails with
the missing-credential error. -/
theorem save_then_resolve_empty_token_counterexample :
    (get_api (save_credentials ⟨"default", none, []⟩ "https://x" "" true).1
        "https://x" "").1
      = Except.error (FxfError.missingToken "https://x" "default") := rfl

/-- C4 amended: for every instance identifier and every non-empty token,
saving the credential and then resolving with no explicit token succeeds and
returns exactly that token. -/
theorem save_then_resolve_roundtrip (cm : ConfigManager)
    (base_url token : String) (writeOk : Bool) (h : token ≠ "") :
    (get_api (save_credentials cm base_url token writeOk).1 base_url "").1
      = Except.ok ⟨base_url, token⟩ := by
  have hk : (save_credentials cm base_url token writeOk).1.keyring
      = krSet cm.keyring "fxf" base_url token := by
    by_cases hw : writeOk <;> simp [save_credentials, hw]
  simp [get_api, hk, krGet_krSet_self, h]

/-- C4 amended witness: a concrete round trip with a non-empty token. -/
theorem save_then_resolve_roundtrip_witness :
    (get_api (save_credentials ⟨"default", none, []⟩ "https://x" "tok" true).1
        "https://x" "").1
      = Except.ok ⟨"https://x", "tok"⟩ :=
  save_then_resolve_roundtrip ⟨"default", none, []⟩ "https://x" "tok" true
    (by decide)

/-- C6: starting from a profile whose domains list has no duplicates, the list
still has no duplicates after any finite sequence of save_credentials calls,
including repeated calls with the same identifier; and an identifier already
present in the list is not appended again (the list is left exactly as it
was, preserving first-registration order). -/
theorem recordDomain_no_duplicates (cm : ConfigManager)
    (calls : List (String × String)) (h : (domainsOf cm).Nodup) :
    (domainsOf (runSaves cm calls)).Nodup
    ∧ ∀ I T : String, I ∈ domainsOf cm →
        domainsOf (save_credentials cm I T true).1 = domainsOf cm := by
  constructor
  · induction calls generalizing cm with
    | nil => exact h
    | cons p rest ih =>
        have hstep : (domainsOf (save_credentials cm p.1 p.2 true).1).Nodup := by
          rw [domainsOf_save]
          exact updatedDomains_nodup h
        exact ih _ hstep
  · intro I T hmem
    rw [domainsOf_save]
    simp [updatedDomains, domainsOf] at hmem ⊢
    simp [hmem]

/-- C6 witness: two saves of the same identifier on a fresh manager leave a
duplicate-free domains list. -/
theorem recordDomain_no_duplicates_witness :
    (domainsOf (runSaves ⟨"default", none, []⟩
        [("https://x", "t1"), ("https://x", "t2")])).Nodup :=
  (recordDomain_no_duplicates ⟨"default", none, []⟩
    [("https://x", "t1"), ("https://x", "t2")] (by decide)).1

/-- C7: resolving a token for an instance with no stored credential and no
explicit token fails with the missing-credential error carrying the instance
identifier and the active profile name, and the effect trace is exactly one
keyring lookup, so in particular it contains no network call. -/
theorem resolveToken_missing_credential (cm : ConfigManager) (base_url : String)
    (h : krGet cm.keyring "fxf" base_url = none) :
    (get_api cm base_url "").1
      = Except.error (FxfError.missingToken base_url cm.profile)
    ∧ (get_api cm base_url "").2 = [Effect.keyringGet "fxf" base_url]
    ∧ networkFree (get_api cm base_url "").2 = true := by
  refine ⟨?_, ?_, ?_⟩ <;> simp [get_api, h, networkFree]

/-- C7 witness: a fresh manager with an empty keyring. -/
theorem resolveToken_missing_credential_witness :
    (get_api ⟨"default", none, []⟩ "https://x" "").1
      = Except.error (FxfError.missingToken "https://x" "default")
    ∧ networkFree (get_api ⟨"default", none, []⟩ "https://x" "").2 = true := by
  have h := resolveToken_missing_credential ⟨"default", none, []⟩ "https://x" rfl
  exact ⟨h.1, h.2.2⟩

/-- C9 counterexample: the secret store is NOT left unchanged when persisting
the profile document fails: saving on a fresh manager whose disk write fails
still stores the token in the keyring, because the keyring save runs inside
the edit scope, before the document write. -/
theorem saveCredential_order_counterexample :
    krGet (save_credentials ⟨"default", none, []⟩ "https://x" "tok" false).1.keyring
        "fxf" "https://x" = some "tok"
    ∧ krGet (ConfigManager.mk "default" none []).keyring "fxf" "https://x" = none := by
  decide

/-- C9 amended: save_credentials saves the token into the secret store inside
the edit_profile scope, before the profile document is persisted: on the
success path the durable effects are the disk read, then the keyring set,
then the disk write, in that order; and when persisting the document fails,
the on-disk document is unchanged while the secret store already holds the
new token. -/
theorem saveCredential_effect_order (cm : ConfigManager)
    (base_url token : String) :
    (∃ doc : TOMLDocument,
      (save_credentials cm base_url token true).2
        = [Effect.diskRead, Effect.keyringSet "fxf" base_url token,
            Effect.diskWrite doc])
    ∧ (save_credentials cm base_url token false).1.disk = cm.disk
    ∧ krGet (save_credentials cm base_url token false).1.keyring "fxf" base_url
        = some token := by
  refine ⟨⟨⟨some (setTable (editSetup cm.profile cm.disk) cm.profile
        { editYield cm.profile cm.disk with
            domains := some (updatedDomains (editYield cm.profile cm.disk) base_url) })⟩,
      ?_⟩, ?_, ?_⟩ <;>
    simp [save_credentials, krGet_krSet_self]

/-! ### Interactive Validation Loop (src/fxf/__main__.py, _get_token)

The loop repeatedly prompts for a token (the user input is modelled as a
finite list of responses), opens an API factory for it via
ConfigManager.get_api, and calls the who-am-I endpoint; the network is
modelled as a function from the token used to the outcome of that call.  The
prompt starts with the initial question and every later prompt shows the
invalid-token retry message (next_message is replaced right after the first
ask).  The list of prompt messages displayed is returned alongside the
result. -/

structure UserInfo where
  type : String
  first_name : String
  last_name : String
deriving DecidableEq, Repr

inductive HttpResult where
  | ok (user : UserInfo)
  | httpStatusError (status : Nat)
  | unsupportedProtocol
deriving DecidableEq, Repr

inductive PromptMessage where
  | initial
  | invalidRetry
deriving DecidableEq, Repr

inductive GetTokenResult where
  | success (user : UserInfo) (token : String)
  | failure (e : FxfError)
  | outOfInput
deriving DecidableEq, Repr

/-- One unrolling of the while loop of _get_token.  A get_api failure
(missing token) is not caught there and escapes; an HTTPStatusError with
status 403 loops again; any other status raises the unexpected-error failure;
an unsupported protocol raises the invalid-URL failure; a decoded user whose
type field is not "authenticated" loops again. -/
def getTokenLoop (cm : ConfigManager) (instance_url : String)
    (whoami : String → HttpResult) :
    List String → PromptMessage → List PromptMessage →
    GetTokenResult × List PromptMessage
  | [], _, msgs => (GetTokenResult.outOfInput, msgs)
  | t :: rest, msg, msgs =>
      let shown := msgs ++ [msg]
      match (get_api cm instance_url t).1 with
      | Except.error e => (GetTokenResult.failure e, shown)
      | Except.ok api =>
          match whoami api.token with
          | HttpResult.ok user =>
              if user.type = "authenticated" then
                (GetTokenResult.success user t, shown)
              else
                getTokenLoop cm instance_url whoami rest
                  PromptMessage.invalidRetry shown
          | HttpResult.httpStatusError s =>
              if s = 403 then
                getTokenLoop cm instance_url whoami rest
                  PromptMessage.invalidRetry shown
              else
                (GetTokenResult.failure (FxfError.unexpectedServer s), shown)
          | HttpResult.unsupportedProtocol =>
              (GetTokenResult.failure (FxfError.invalidUrl instance_url), shown)

/-- The function _get_token of __main__.py: run the loop from the initial
prompt message with an empty message history. -/
def login_get_token (cm : ConfigManager) (instance_url : String)
    (whoami : String → HttpResult) (inputs : List String) :
    GetTokenResult × List PromptMessage :=
  getTokenLoop cm instance_url whoami inputs PromptMessage.initial []

/-- C5: with the input tokens bad1, bad2, good, where the who-am-I call fails
with HTTP 403 for bad1 and bad2 and yields an authenticated user for good,
the loop prompts exactly three times, the initial message once and the
invalid-token retry message twice, and returns the authenticated identity
together with the token good. -/
theorem validation_loop_three_prompts (cm : ConfigManager) (url : String)
    (whoami : String → HttpResult) (u : UserInfo)
    (h1 : whoami "bad1" = HttpResult.httpStatusError 403)
    (h2 : whoami "bad2" = HttpResult.httpStatusError 403)
    (h3 : whoami "good" = HttpResult.ok u)
    (h4 : u.type = "authenticated") :
    login_get_token cm url whoami ["bad1", "bad2", "good"]
      = (GetTokenResult.success u "good",
          [PromptMessage.initial, PromptMessage.invalidRetry,
            PromptMessage.invalidRetry]) := by
  simp [login_get_token, getTokenLoop, get_api, h1, h2, h3, h4]

/-- C5 witness: a concrete mocked endpoint where only the token good
authenticates. -/
theorem validation_loop_three_prompts_witness :
    login_get_token ⟨"default", none, []⟩ "https://x"
      (fun t =>
        if t = "good" then HttpResult.ok ⟨"authenticated", "Ada", "L"⟩
        else HttpResult.httpStatusError 403)
      ["bad1", "bad2", "good"]
      = (GetTokenResult.success ⟨"authenticated", "Ada", "L"⟩ "good",
          [PromptMessage.initial, PromptMessage.invalidRetry,
            PromptMessage.invalidRetry]) :=
  validation_loop_three_prompts ⟨"default", none, []⟩ "https://x"
    (fun t =>
      if t = "good" then HttpResult.ok ⟨"authenticated", "Ada", "L"⟩
      else HttpResult.httpStatusError 403)
    ⟨"authenticated", "Ada", "L"⟩ rfl rfl rfl rfl

/-- C8: when the who-am-I call for the prompted token fails with an HTTP
status, the loop retries (continuing with the retry prompt message) exactly
when the status is 403; any other status aborts immediately with the
unexpected-server failure carrying that status, and no further prompt is
shown. -/
theorem validation_loop_retry_iff_403 (cm : ConfigManager) (url : String)
    (whoami : String → HttpResult) (t : String) (rest : List String)
    (msg : PromptMessage) (msgs : List PromptMessage) (s : Nat)
    (ht : t ≠ "") (hw : whoami t = HttpResult.httpStatusError s) :
    (s = 403 →
      getTokenLoop cm url whoami (t :: rest) msg msgs
        = getTokenLoop cm url whoami rest PromptMessage.invalidRetry
            (msgs ++ [msg]))
    ∧ (s ≠ 403 →
      getTokenLoop cm url whoami (t :: rest) msg msgs
        = (GetTokenResult.failure (FxfError.unexpectedServer s),
            msgs ++ [msg])) := by
  constructor <;> intro hs <;> simp [getTokenLoop, get_api, ht, hw, hs]

/-- C8 witness: a status 500 failure aborts the loop at once with the
unexpected-server failure and a single prompt. -/
theorem validation_loop_retry_iff_403_witness :
    getTokenLoop ⟨"default", none, []⟩ "https://x"
        (fun _ => HttpResult.httpStatusError 500) ["tok"]
        PromptMessage.initial []
      = (GetTokenResult.failure (FxfError.unexpectedServer 500),
          [PromptMessage.initial]) :=
  (validation_loop_retry_iff_403 ⟨"default", none, []⟩ "https://x"
      (fun _ => HttpResult.httpStatusError 500) "tok" [] PromptMessage.initial
      [] 500 (by decide) rfl).2 (by decide)

/-! ### GHA generation error handling (src/fxf/__main__.py, gha)

On an HTTPStatusError with status 400 the command reads the fluxfile entry of
the JSON error body and renders one table row per error, joining the path
segments with ".".  JSON path segments can be strings or integers, and the
Python join of the segments accepts only strings. -/

inductive JsonValue where
  | str (s : String)
  | int (n : Int)
deriving DecidableEq, Repr

inductive PyError where
  | typeError
deriving DecidableEq, Repr

/-- Python string join: concatenates the items with the separator between
them, raising TypeError when any item is not a string (for instance the
integer index 0 inside an error path). -/
def strJoin (sep : String) (items : List JsonValue) : Except PyError String :=
  match items.mapM (fun v =>
      match v with
      | JsonValue.str s => some s
      | JsonValue.int _ => none) with
  | some strs => Except.ok (String.intercalate sep strs)
  | none => Except.error PyError.typeError

structure FluxfileError where
  path : List JsonValue
  message : String
deriving DecidableEq, Repr

structure GhaErrorBody where
  fluxfile : Option (List FluxfileError)
deriving DecidableEq, Repr

inductive GhaOutcome where
  | errorTable (rows : List (String × String))
  | clickException (msg : String)
  | pythonError (e : PyError)
deriving DecidableEq, Repr

/-- The rows of the Invalid Fluxfile table: for each error the path segments
joined with "." paired with its message; a TypeError from a non-string
segment aborts the construction. -/
def ghaErrorRows (errors : List FluxfileError) :
    Except PyError (List (String × String)) :=
  errors.mapM fun err => (strJoin "." err.path).map fun p => (p, err.message)

/-- The except branch of the gha command handling an HTTPStatusError: on
status 400, a missing or empty fluxfile list (Python falsiness covers both)
becomes the unknown-error ClickException, otherwise the error table is
rendered; any other status becomes the API-error ClickException.  A TypeError
raised while building a row is not caught anywhere and escapes as a crash. -/
def gha_handle_status_error (status : Nat) (body : GhaErrorBody) : GhaOutcome :=
  if status = 400 then
    match body.fluxfile with
    | none => GhaOutcome.clickException "Unknown error from API"
    | some [] => GhaOutcome.clickException "Unknown error from API"
    | some errors =>
        match ghaErrorRows errors with
        | Except.ok rows => GhaOutcome.errorTable rows
        | Except.error e => GhaOutcome.pythonError e
  else GhaOutcome.clickException ("API error: HTTP " ++ toString status)

/-- C2: evaluation of the gha error handler at the input of the claim, a 400
response whose single error has path segments "steps" and the integer 0.  The
command does not produce the one-row table with path "steps.0" and message
"bad step"; joining the path segments raises TypeError on the integer
segment, so the command crashes instead. -/
theorem gha_int_path_segment_type_error :
    gha_handle_status_error 400
        ⟨some [⟨[JsonValue.str "steps", JsonValue.int 0], "bad step"⟩]⟩
      = GhaOutcome.pythonError PyError.typeError := rfl

end Fxf
